import Mathlib

/-!
Verification development for the `python-utils` repository
(`src/python_utils/generic_utils.py` and `src/python_utils/scraping_utils.py`).

The Python functions are shallowly embedded as Lean functions:
* the filesystem is an explicit map from path strings to file contents;
* Python exceptions become `Except PyErr`;
* a JSON document is an inductive value type (`json.dump` followed by
  `json.load` is the identity on such values, so files store the value);
* a CSV dataset is a list of rows, and a pandas DataFrame together with its
  row index is a list of index/row pairs.
-/

set_option autoImplicit false

namespace PythonUtils

/-- The Python exception classes that the embedded code can raise.
`otherError` stands for any exception not distinguished by the sources. -/
inductive PyErr where
  | valueError
  | fileNotFoundError
  | typeError
  | jsonDecodeError
  | otherError
  deriving DecidableEq, Repr

/-- A JSON-serializable value, the universe quantified over by the spec's
"JSON-serializable value v".  Numbers are modelled as integers. -/
inductive Json where
  | null
  | bool (b : Bool)
  | num (n : Int)
  | str (s : String)
  | arr (xs : List Json)
  | obj (kvs : List (String × Json))

/-- Contents of a file holding JSON text: `some j` is a well-formed
serialization of the value `j`, `none` is malformed JSON text (the text
makes `json.load` raise `json.JSONDecodeError`). -/
abbrev JsonFile : Type := Option Json

/-- A filesystem of JSON files: `none` means the path does not exist. -/
abbrev JsonFS : Type := String → Option JsonFile

/-- Write `content` at path `p` (the effect of a successful `open(p, "w")`
followed by `json.dump`). -/
def jsonFsWrite (fs : JsonFS) (p : String) (content : JsonFile) : JsonFS :=
  fun q => if q = p then some content else fs q

/-- A filesystem with no files at all. -/
def emptyJsonFS : JsonFS := fun _ => none

/-- Embedding of `save_output_in_json(output_file_path, data, data_description)`
from `generic_utils.py`.

* `if not output_file_path: raise ValueError(...)` — empty path raises
  `ValueError` before anything is written;
* inside `try`, the file is opened for writing and
  `{data_description: data}` is dumped when `data_description != ''`,
  else `{'data': data}` (`sort_keys` and `indent` do not change the value);
* `except Exception as exc: print(...)` — every failure inside the `try`
  block (I/O or encoding) is caught and logged, nothing propagates.
  `fault` models whether such a failure occurs during the write. -/
def saveOutputInJson (outputFilePath : String) (data : Json)
    (dataDescription : String) (fault : Option PyErr) (fs : JsonFS) :
    Except PyErr JsonFS :=
  if outputFilePath = "" then
    .error .valueError
  else
    match fault with
    | some _ => .ok fs
    | none =>
        let wrapped : Json :=
          if dataDescription ≠ "" then .obj [(dataDescription, data)]
          else .obj [("data", data)]
        .ok (jsonFsWrite fs outputFilePath (some wrapped))

/-- Embedding of `load_json_file(file_path)` from `generic_utils.py`.

* `if not os.path.exists(file_path): raise FileNotFoundError(...)`;
* `json.load` returns the stored value on well-formed content;
* on malformed content `json.load` raises `json.JSONDecodeError`, and the
  handler runs `raise json.JSONDecodeError(f"...")`.  CPython's
  `json.JSONDecodeError.__init__` requires three arguments
  `(msg, doc, pos)`, so this one-argument constructor call itself raises
  `TypeError`, which propagates (the sibling `except Exception` clause of
  the same `try` does not catch exceptions raised inside a handler). -/
def loadJsonFile (fs : JsonFS) (filePath : String) : Except PyErr Json :=
  match fs filePath with
  | none => .error .fileNotFoundError
  | some none => .error .typeError
  | some (some j) => .ok j

/-! CSV utilities -/

/-- One row of a tabular dataset (the cells, in column order). -/
abbrev Row : Type := List String

/-- A filesystem of CSV files: each existing file holds a dataset, namely
the ordered list of rows that `pd.read_csv` yields for it (the header and
its parsing are below this abstraction). -/
abbrev CsvFS : Type := String → Option (List Row)

/-- A pandas DataFrame together with its row index: a list of
index / row pairs.  `pd.read_csv` yields the default `RangeIndex`
`0, 1, 2, …`, and `pd.concat(..., ignore_index=True)` renumbers the same
way, so an index is attached with `List.enum`. -/
abbrev PdFrame : Type := List (Nat × Row)

/-- The split boundaries of `split_csv_into_multiple_csv`:
`np.int64(np.linspace(0, 1, n+1) * len(df))`, i.e. the truncation of
`i / n * len` for `i = 0, …, n`, here in exact arithmetic as `i * len / n`
(natural division; numpy evaluates the same quantity in floating point). -/
def splitIndexes (len n : Nat) : List Nat :=
  (List.range (n + 1)).map fun i => i * len / n

/-- Positional row slice `df[a:b]` of a DataFrame (clamped at the ends,
as Python slicing is). -/
def pySlice (df : List Row) (a b : Nat) : List Row :=
  (df.drop a).take (b - a)

/-- Embedding of the dataset-level behavior of
`split_csv_into_multiple_csv(input_file, number_of_output_files)`:
the loop writes, for each consecutive boundary pair
`(start_idx, end_idx)` from `zip(split_indexes, split_indexes[1:])`,
the slice `df[start_idx:end_idx]` to the file with the matching 1-based
suffix; the returned list holds those written slices in file-index order. -/
def splitCsvIntoMultipleCsv (df : List Row) (numberOfOutputFiles : Nat) :
    List (List Row) :=
  let idxs := splitIndexes df.length numberOfOutputFiles
  (idxs.zip idxs.tail).map fun p => pySlice df p.1 p.2

/-- Round a scaled significand to an integer: to the nearest, and on an
exact tie to the even neighbour (the IEEE 754 default rounding
direction). -/
def roundHalfEven (m : Rat) : Int :=
  if m - ⌊m⌋ < 1 / 2 then ⌊m⌋
  else if 1 / 2 < m - ⌊m⌋ then ⌊m⌋ + 1
  else if ⌊m⌋ % 2 = 0 then ⌊m⌋ else ⌊m⌋ + 1

/-- Round a positive rational to the nearest IEEE binary64 value
(unbounded exponent range): scale by `2 ^ (⌊log₂ x⌋ - 52)` so the
significand lies in `[2^52, 2^53)`, round it half-to-even, scale back. -/
def rn53pos (x : Rat) : Rat :=
  (roundHalfEven (x / 2 ^ (Int.log 2 x - 52)) : Rat) * 2 ^ (Int.log 2 x - 52)

/-- The IEEE binary64 rounding of an exact rational product: round to
nearest, ties to even, at 53 significant bits.  The exponent range is not
bounded: the products arising here (a row count times a ratio in `[0, 1]`)
cannot overflow, and a product small enough to fall in the subnormal range
is an integer multiple of the subnormal quantum and hence exact, so the
unbounded model agrees with binary64 on every input this program can
produce. -/
def rn53 (x : Rat) : Rat :=
  if x = 0 then 0
  else if 0 < x then rn53pos x
  else -rn53pos (-x)

/-- The split point of `split_csv_by_ratio_into_two_csv`:
`int(len(df) * split_ratio)`.  Python converts `len(df)` to binary64
(exact, since a DataFrame's row count is far below `2^53`), multiplies by
the double `split_ratio` with the result rounded to nearest (ties to
even), and `int(...)` truncates the non-negative result toward zero.
`ratio` stands for the exact rational value of the double passed in. -/
def splitIndex (len : Nat) (ratio : Rat) : Nat :=
  (⌊rn53 ((len : Rat) * ratio)⌋).toNat

/-- Embedding of the dataset-level behavior of
`split_csv_by_ratio_into_two_csv(input_file, out1, out2, split_ratio)`
after the input file has been read:

* `if not 0 <= split_ratio <= 1: raise ValueError(...)`;
* `split_index = int(len(df) * split_ratio)`;
* `df1 = df[:split_index]`, `df2 = df[split_index:]`, each written out;
  the result pair holds the two written datasets. -/
def splitCsvByRatioIntoTwoCsv (df : List Row) (ratio : Rat) :
    Except PyErr (List Row × List Row) :=
  if ¬(0 ≤ ratio ∧ ratio ≤ 1) then .error .valueError
  else .ok (df.take (splitIndex df.length ratio),
            df.drop (splitIndex df.length ratio))

/-- The per-file task `_read_csv(file)` inside `read_multiple_csv`:
`if not os.path.exists(file): raise FileNotFoundError(...)`, else
`pd.read_csv(file)`. -/
def readCsvTask (fs : CsvFS) (file : String) : Except PyErr (List Row) :=
  match fs file with
  | none => .error .fileNotFoundError
  | some rows => .ok rows

/-- `pd.concat(df_list, ignore_index=True)`: raises
`ValueError("No objects to concatenate")` on an empty list, otherwise
concatenates the rows in list order and renumbers the combined row index
contiguously from zero. -/
def pdConcatIgnoreIndex (dfs : List (List Row)) : Except PyErr PdFrame :=
  match dfs with
  | [] => .error .valueError
  | _ => .ok (dfs.flatten).enum

/-- The future-collection loop of `read_multiple_csv`: the thread pool
runs one `_read_csv` task per file, and `future.result()` is called in
submission order, so the results arrive in the order of `files` and the
earliest failing task's exception propagates out of the loop (the tasks
share no state, so the concurrent run is observationally this sequential
collection). -/
def collectReads (fs : CsvFS) : List String → Except PyErr (List (List Row))
  | [] => .ok []
  | f :: r =>
      match readCsvTask fs f with
      | .error e => .error e
      | .ok df =>
          match collectReads fs r with
          | .error e => .error e
          | .ok rest => .ok (df :: rest)

/-- Embedding of `read_multiple_csv(files)` from `generic_utils.py`:
collect the per-file reads, keep only datasets with at least one row
(`if len(df): df_list.append(df)`), and merge them with
`pd.concat(df_list, ignore_index=True)`. -/
def readMultipleCsv (fs : CsvFS) (files : List String) :
    Except PyErr PdFrame :=
  match collectReads fs files with
  | .error e => .error e
  | .ok dfs => pdConcatIgnoreIndex (dfs.filter fun df => ¬df.isEmpty)

/-! Scraping utilities -/

/-- The externally-owned response object of `scraping_utils.py`, reduced to
the one capability the code uses: evaluating
`response.xpath(xpath).extract()`, which either raises or returns the list
of matched text fragments. -/
abbrev Response : Type := String → Except PyErr (List String)

/-- Python's `url.strip('/')`: remove every leading and trailing `'/'`
character. -/
def stripSlashes (s : String) : String :=
  ⟨((s.toList.dropWhile fun c => c = '/').reverse.dropWhile fun c => c = '/').reverse⟩

/-- Python's `root_url.endswith('/')`: the string is non-empty and its
last character is `'/'`. -/
def pyEndsWithSlash (s : String) : Bool :=
  s.toList.getLast? = some '/'

/-- The root normalization step of `get_full_urls`:
`if not root_url.endswith('/'): root_url += '/'`. -/
def ensureTrailingSlash (rootUrl : String) : String :=
  if pyEndsWithSlash rootUrl then rootUrl else rootUrl ++ "/"

/-- Embedding of `get_full_urls(root_url, urls)` from `scraping_utils.py`
(the `isinstance` validations always pass under typed arguments):
after normalizing the root, the list comprehension
`[root_url + url.strip('/') for url in urls if url.strip('/')]` keeps, in
order, every entry whose stripped form is non-empty and appends that
stripped form to the root. -/
def getFullUrls (rootUrl : String) (urls : List String) : List String :=
  let root := ensureTrailingSlash rootUrl
  (urls.filter fun url => stripSlashes url ≠ "").map
    fun url => root ++ stripSlashes url

/-- Embedding of `scrape_xpath(response, xpath)` from `scraping_utils.py`.

* `if not xpath or not isinstance(xpath, str): raise ValueError(...)` —
  under a typed `String` argument, only the emptiness test can fire;
* `try: data = response.xpath(xpath).extract() except Exception: ...
  return None` — an evaluation failure is logged and absorbed into `none`;
* `return data if data else None` — an empty match list also becomes
  `none`. -/
def scrapeXpath (response : Response) (xpath : String) :
    Except PyErr (Option (List String)) :=
  if xpath = "" then .error .valueError
  else
    match response xpath with
    | .error _ => .ok none
    | .ok data => .ok (if data.isEmpty then none else some data)

/-- Remove every trailing `'/'` character of a string. -/
def stripTrailingSlashes (s : String) : String :=
  ⟨(s.toList.reverse.dropWhile fun c => c = '/').reverse⟩

/-- The claim's reading of the URL join, for refinement comparison with
`getFullUrls`: the root is normalized to end with EXACTLY ONE trailing
`'/'` (existing trailing slashes are collapsed), then each entry is
stripped of leading and trailing `'/'` and appended when non-empty. -/
def claimJoinUrls (root : String) (urls : List String) : List String :=
  let nroot := stripTrailingSlashes root ++ "/"
  (urls.filter fun u => stripSlashes u ≠ "").map fun u => nroot ++ stripSlashes u

/-- Python's `set(...)` constructor on a list of strings, modelled as
duplicate removal (the iteration order of a Python set is unspecified, and
no claim depends on the order). -/
def pySet (l : List String) : List String := l.dedup

/-- Embedding of `extract_urls_from_xpath(response, xpath, root_url)`:
`urls = scrape_xpath(response, xpath)` (whose exception, if any,
propagates) followed by
`return set(get_full_urls(root_url, urls)) if urls else None`. -/
def extractUrlsFromXpath (response : Response) (xpath rootUrl : String) :
    Except PyErr (Option (List String)) :=
  match scrapeXpath response xpath with
  | .error e => .error e
  | .ok none => .ok none
  | .ok (some us) =>
      if us.isEmpty then .ok none
      else .ok (some (pySet (getFullUrls rootUrl us)))

/-! Concrete fixtures used by witnesses and counterexamples -/

/-- A filesystem whose only file, `bad.json`, holds malformed JSON text. -/
def badJsonFS : JsonFS := fun p => if p = "bad.json" then some none else none

/-- A filesystem whose only file, `empty.csv`, loads as a dataset with
zero rows. -/
def emptyCsvFS : CsvFS := fun p => if p = "empty.csv" then some [] else none

/-- A filesystem with `f1.csv` holding three rows and `f2.csv` holding
zero rows. -/
def twoCsvFS : CsvFS := fun p =>
  if p = "f1.csv" then some [["r1"], ["r2"], ["r3"]]
  else if p = "f2.csv" then some [] else none

/-- The IEEE binary64 double nearest `1/3` (the value of Python's
`1/3`): `6004799503160661 × 2⁻⁵⁴`, which is `(2⁵⁴ - 1)/3 / 2⁵⁴` and lies
`(1/3)·2⁻⁵⁴` below `1/3`, a third of the way to the next double. -/
def dblThird : Rat := 6004799503160661 / 18014398509481984

/-- A response on which every query evaluates to an empty match list. -/
def emptyMatchResponse : Response := fun _ => .ok []

/-- A response on which every query evaluation raises. -/
def raisingResponse : Response := fun _ => .error .otherError

/-! Theorems for the claims -/

/-- A `(· ≤ ·)`-chain starting at `a` never falls below `a`, so neither
does its last element. -/
theorem le_getLastD_of_chain (a : Nat) (l : List Nat)
    (h : List.Chain (· ≤ ·) a l) : a ≤ l.getLastD a := by
  induction l generalizing a with
  | nil => simp
  | cons b t ih =>
      rcases List.chain_cons.mp h with ⟨hab, ht⟩
      rw [List.getLastD_cons]
      exact le_trans hab (ih b ht)

/-- Concatenating the consecutive slices determined by a
`(· ≤ ·)`-chained boundary list `a :: t` recovers the rows of `df`
between position `a` and the last boundary. -/
theorem flatten_slices_cons (df : List Row) (t : List Nat) (a : Nat)
    (h : List.Chain (· ≤ ·) a t) :
    ((((a :: t).zip t).map fun p => pySlice df p.1 p.2).flatten) =
      (df.drop a).take (t.getLastD a - a) := by
  induction t generalizing a with
  | nil => simp
  | cons b t2 ih =>
      rcases List.chain_cons.mp h with ⟨hab, hbt⟩
      have hbl : b ≤ t2.getLastD b := le_getLastD_of_chain b t2 hbt
      rw [List.getLastD_cons]
      simp only [List.zip_cons_cons, List.map_cons, List.flatten_cons]
      rw [ih b hbt]
      have hsum : t2.getLastD b - a = (b - a) + (t2.getLastD b - b) := by omega
      rw [hsum, List.take_add, List.drop_drop]
      have hb : a + (b - a) = b := by omega
      rw [hb]
      rfl

/-- C2: for every dataset and every `n ≥ 1`,
`split_csv_into_multiple_csv` writes exactly `n` output slices, their row
counts sum to the dataset's row count, and concatenating them in
file-index order reproduces the dataset's rows in their original order. -/
theorem split_csv_into_multiple_csv_spec (df : List Row) (n : Nat)
    (hn : 1 ≤ n) :
    (splitCsvIntoMultipleCsv df n).length = n ∧
    (splitCsvIntoMultipleCsv df n).flatten = df ∧
    ((splitCsvIntoMultipleCsv df n).map List.length).sum = df.length := by
  have hmono : ∀ i, i * df.length / n ≤ (i + 1) * df.length / n :=
    fun i => Nat.div_le_div_right (Nat.mul_le_mul_right _ (Nat.le_succ i))
  have hflat : (splitCsvIntoMultipleCsv df n).flatten = df := by
    unfold splitCsvIntoMultipleCsv splitIndexes
    rw [List.range_succ_eq_map n]
    simp only [List.map_cons, List.map_map, List.tail_cons]
    have hchain :
        List.Chain (· ≤ ·) (0 * df.length / n)
          ((List.range n).map
            ((fun i => i * df.length / n) ∘ Nat.succ)) := by
      have hall : List.Chain' (· ≤ ·)
          ((List.range (n + 1)).map fun i => i * df.length / n) := by
        rw [List.chain'_map]
        exact (List.chain'_range_succ _ n).mpr fun m _ => hmono m
      rw [List.range_succ_eq_map n] at hall
      simpa using hall
    rw [flatten_slices_cons df _ _ hchain]
    have hzero : 0 * df.length / n = 0 := by simp
    obtain ⟨m, rfl⟩ : ∃ m, n = m + 1 := ⟨n - 1, by omega⟩
    have hlast :
        ((List.range (m + 1)).map
          ((fun i => i * df.length / (m + 1)) ∘ Nat.succ)).getLastD
            (0 * df.length / (m + 1)) = (m + 1) * df.length / (m + 1) := by
      rw [List.range_succ, List.map_append]
      simp [List.getLastD_concat]
    rw [hlast, hzero, Nat.mul_div_cancel_left _ (by omega : 0 < m + 1)]
    simp
  refine ⟨?_, hflat, ?_⟩
  · unfold splitCsvIntoMultipleCsv splitIndexes
    simp [List.length_zip, Nat.min_def]
  · rw [← List.length_flatten, hflat]

/-- C2 (witness): splitting a five-row dataset into two files. -/
theorem split_csv_into_multiple_csv_spec_witness :
    1 ≤ 2 ∧
    ((splitCsvIntoMultipleCsv [["a"], ["b"], ["c"], ["d"], ["e"]] 2).length = 2 ∧
     (splitCsvIntoMultipleCsv [["a"], ["b"], ["c"], ["d"], ["e"]] 2).flatten =
       [["a"], ["b"], ["c"], ["d"], ["e"]] ∧
     ((splitCsvIntoMultipleCsv [["a"], ["b"], ["c"], ["d"], ["e"]] 2).map
       List.length).sum = 5) :=
  ⟨by decide,
    split_csv_into_multiple_csv_spec [["a"], ["b"], ["c"], ["d"], ["e"]] 2
      (by decide)⟩

/-- The embedded float computation at the counterexample input: Python
evaluates `int(3 * (1/3))` to `1`, because the exact product
`3 · dblThird = 1 - 2⁻⁵⁴` is an exact tie between the doubles `1 - 2⁻⁵³`
(odd significand) and `1.0` (even significand) and rounds up to `1.0`. -/
theorem splitIndex_three_dblThird : splitIndex 3 dblThird = 1 := by
  have hx : ((3 : Nat) : Rat) * dblThird =
      18014398509481983 / 18014398509481984 := by
    norm_num [dblThird]
  have hlog :
      Int.log 2 ((18014398509481983 : Rat) / 18014398509481984) = -1 := by
    rw [Int.log_of_right_le_one 2 (by norm_num)]
    have hceil :
        ⌈((18014398509481983 : Rat) / 18014398509481984)⁻¹⌉₊ = 2 := by
      rw [Nat.ceil_eq_iff (by norm_num)]
      constructor
      · norm_num
      · norm_num
    rw [hceil, Nat.clog_eq_one (by norm_num) (by norm_num)]
    norm_num
  unfold splitIndex rn53 rn53pos
  rw [hx, if_neg (by norm_num), if_pos (by norm_num), hlog]
  rw [show (-1 : Int) - 52 = -53 from by norm_num]
  rw [show (2 : Rat) ^ (-53 : Int) = (9007199254740992 : Rat)⁻¹ from by
    norm_num]
  rw [show (18014398509481983 : Rat) / 18014398509481984 /
      (9007199254740992 : Rat)⁻¹ = 18014398509481983 / 2 from by norm_num]
  have hfl : ⌊(18014398509481983 : Rat) / 2⌋ = 9007199254740991 := by
    rw [Int.floor_eq_iff]
    · constructor
      · norm_num
      · norm_num
  unfold roundHalfEven
  rw [hfl, if_neg (by norm_num), if_neg (by norm_num), if_neg (by norm_num)]
  rw [show ((9007199254740991 + 1 : Int) : Rat) *
      (9007199254740992 : Rat)⁻¹ = 1 from by norm_num]
  norm_num

/-- C6 (counterexample): the written file sizes are NOT always
`⌊|D| · r⌋` and `|D| - ⌊|D| · r⌋`.  For a three-row dataset and the ratio
`float(1/3)`, the exact floor is `⌊3 · r⌋ = 0` (since `3 · r < 1`), but
the program computes `int` of the IEEE-rounded product, which rounds
`1 - 2⁻⁵⁴` up to `1.0`, so the first file gets one row, not zero. -/
theorem split_csv_by_ratio_float_counterexample :
    (0 ≤ dblThird ∧ dblThird ≤ 1) ∧
    splitCsvByRatioIntoTwoCsv [["a"], ["b"], ["c"]] dblThird =
      .ok ([["a"]], [["b"], ["c"]]) ∧
    (⌊(([["a"], ["b"], ["c"]] : List Row).length : Rat) * dblThird⌋).toNat
      = 0 ∧
    ([["a"]] : List Row).length ≠
      (⌊(([["a"], ["b"], ["c"]] : List Row).length : Rat) * dblThird⌋).toNat
    := by
  have hfl0 :
      (⌊(([["a"], ["b"], ["c"]] : List Row).length : Rat) * dblThird⌋).toNat
        = 0 := by
    rw [show ((([["a"], ["b"], ["c"]] : List Row).length : Rat) * dblThird)
        = (18014398509481983 : Rat) / 18014398509481984 from by
      norm_num [dblThird]]
    rw [show ⌊(18014398509481983 : Rat) / 18014398509481984⌋ = 0 from by
      rw [Int.floor_eq_iff]
      · constructor
        · norm_num
        · norm_num]
    rfl
  refine ⟨⟨by norm_num [dblThird], by norm_num [dblThird]⟩, ?_, hfl0, ?_⟩
  · unfold splitCsvByRatioIntoTwoCsv
    rw [if_neg (not_not_intro
      ⟨by norm_num [dblThird], by norm_num [dblThird]⟩)]
    rw [show ([["a"], ["b"], ["c"]] : List Row).length = 3 from rfl]
    rw [splitIndex_three_dblThird]
    rfl
  · rw [hfl0]
    norm_num

/-- C6 (amended): for every dataset and every ratio `r` in `[0, 1]`,
`split_csv_by_ratio_into_two_csv` writes two files, the first holding the
head rows `D[:k]` and the second the remaining tail rows `D[k:]`, where
`k = int(|D| * r)` is evaluated in the program's double-precision
arithmetic (and so matches the exact `⌊|D| · r⌋` only up to the IEEE
rounding of the product); the two row counts always sum to `|D|`, and
concatenating the two files restores the dataset. -/
theorem split_csv_by_ratio_spec (df : List Row) (r : Rat)
    (h0 : 0 ≤ r) (h1 : r ≤ 1) :
    ∃ d1 d2, splitCsvByRatioIntoTwoCsv df r = .ok (d1, d2) ∧
      d1 = df.take (splitIndex df.length r) ∧
      d2 = df.drop (splitIndex df.length r) ∧
      d1.length + d2.length = df.length ∧
      d1 ++ d2 = df := by
  refine ⟨_, _, ?_, rfl, rfl, ?_, List.take_append_drop _ _⟩
  · unfold splitCsvByRatioIntoTwoCsv
    rw [if_neg (not_not_intro ⟨h0, h1⟩)]
  · rw [List.length_take, List.length_drop]
    omega

/-- C6 (witness): a three-row dataset split at ratio `1/2` (a ratio whose
product with the length is exactly representable). -/
theorem split_csv_by_ratio_spec_witness :
    (0 : Rat) ≤ 1 / 2 ∧ (1 / 2 : Rat) ≤ 1 ∧
    (∃ d1 d2,
      splitCsvByRatioIntoTwoCsv [["a"], ["b"], ["c"]] (1 / 2) = .ok (d1, d2) ∧
      d1 = ([["a"], ["b"], ["c"]] : List Row).take
        (splitIndex ([["a"], ["b"], ["c"]] : List Row).length (1 / 2)) ∧
      d2 = ([["a"], ["b"], ["c"]] : List Row).drop
        (splitIndex ([["a"], ["b"], ["c"]] : List Row).length (1 / 2)) ∧
      d1.length + d2.length = ([["a"], ["b"], ["c"]] : List Row).length ∧
      d1 ++ d2 = [["a"], ["b"], ["c"]]) :=
  ⟨by norm_num, by norm_num,
    split_csv_by_ratio_spec [["a"], ["b"], ["c"]] (1 / 2)
      (by norm_num) (by norm_num)⟩

/-- C1 (counterexample): the round trip is NOT `\x7bL: v\x7d` for every
label `L` — with the empty label, `save_output_in_json` wraps the value
under the key `"data"`, so `load_json_file` returns `\x7b"data": v\x7d`,
which differs from `\x7b"": v\x7d`. -/
theorem save_then_load_empty_label_counterexample :
    (saveOutputInJson "out.json" Json.null "" none emptyJsonFS).bind
      (fun fs2 => loadJsonFile fs2 "out.json") =
      .ok (Json.obj [("data", Json.null)]) ∧
    Json.obj [("data", Json.null)] ≠ Json.obj [("", Json.null)] := by
  refine ⟨rfl, ?_⟩
  simp

/-- C1 (amended): for every JSON-serializable value `v`, every non-empty
path `p`, and every NON-EMPTY label `L`, saving with
`save_output_in_json(p, v, L)` (with the write not hitting an I/O fault)
and then calling `load_json_file(p)` returns exactly the one-key mapping
`\x7bL: v\x7d`. -/
theorem save_then_load_roundtrip (p : String) (v : Json) (L : String)
    (fs : JsonFS) (hp : p ≠ "") (hL : L ≠ "") :
    (saveOutputInJson p v L none fs).bind (fun fs2 => loadJsonFile fs2 p) =
      .ok (Json.obj [(L, v)]) := by
  simp [saveOutputInJson, hp, hL, loadJsonFile, jsonFsWrite, Except.bind]

/-- C1 (witness): the round trip at path `out.json`, value `null`, label
`label`. -/
theorem save_then_load_roundtrip_witness :
    ("out.json" : String) ≠ "" ∧ ("label" : String) ≠ "" ∧
    (saveOutputInJson "out.json" Json.null "label" none emptyJsonFS).bind
      (fun fs2 => loadJsonFile fs2 "out.json") =
      .ok (Json.obj [("label", Json.null)]) :=
  ⟨by decide, by decide,
    save_then_load_roundtrip "out.json" Json.null "label" emptyJsonFS
      (by decide) (by decide)⟩

/-- C5 (code bug): on an existing file with malformed content,
`load_json_file` does not raise `json.JSONDecodeError` as its docstring
promises — the handler's one-argument `json.JSONDecodeError(...)` call is
missing the required `doc` and `pos` arguments, so the call raises
`TypeError`, and that is what propagates. -/
theorem load_json_file_malformed_raises_type_error :
    loadJsonFile badJsonFS "bad.json" = .error .typeError ∧
    PyErr.typeError ≠ PyErr.jsonDecodeError :=
  ⟨rfl, by decide⟩

/-- C8: `save_output_in_json` raises an error exactly when the output path
is empty, and that error is `ValueError`; for every non-empty path the
call returns normally even when the write faults (the failure is caught
and logged inside the function). -/
theorem save_output_in_json_error_iff (p : String) (v : Json) (L : String)
    (fault : Option PyErr) (fs : JsonFS) (e : PyErr) :
    saveOutputInJson p v L fault fs = .error e ↔ p = "" ∧ e = .valueError := by
  by_cases hp : p = "" <;> cases fault <;>
    simp [saveOutputInJson, hp, eq_comm]

/-- When every listed file exists, the per-file read tasks all succeed and
deliver the files' datasets in list order. -/
theorem collectReads_of_exists (fs : CsvFS) (files : List String)
    (hex : ∀ f ∈ files, (fs f).isSome) :
    collectReads fs files = .ok (files.filterMap fs) := by
  induction files with
  | nil => rfl
  | cons f r ih =>
      obtain ⟨d, hd⟩ := Option.isSome_iff_exists.mp (hex f (by simp))
      have hr := ih fun g hg => hex g (by simp [hg])
      simp [collectReads, readCsvTask, hd, hr, List.filterMap_cons]

/-- When some listed file is missing, the earliest failing task's
`FileNotFoundError` propagates out of the read loop. -/
theorem collectReads_missing (fs : CsvFS) (files : List String)
    (h : ∃ f ∈ files, fs f = none) :
    collectReads fs files = .error .fileNotFoundError := by
  induction files with
  | nil => simp at h
  | cons f r ih =>
      cases hf : fs f with
      | none => simp [collectReads, readCsvTask, hf]
      | some rows =>
          have hr : ∃ g ∈ r, fs g = none := by
            rcases h with ⟨g, hg, hgnone⟩
            rcases List.mem_cons.mp hg with rfl | hgr
            · exact absurd hgnone (by simp [hf])
            · exact ⟨g, hgr, hgnone⟩
          simp [collectReads, readCsvTask, hf, ih hr]

/-- C3 (counterexample): when every path exists but every dataset loads
with zero rows, `read_multiple_csv` does not return the concatenation of
the remaining (zero) datasets — it raises instead. -/
theorem read_multiple_csv_all_empty_counterexample :
    readMultipleCsv emptyCsvFS ["empty.csv"] = .error .valueError ∧
    readMultipleCsv emptyCsvFS ["empty.csv"] ≠ .ok [] :=
  ⟨rfl, by
    intro h
    rw [show readMultipleCsv emptyCsvFS ["empty.csv"] =
      .error .valueError from rfl] at h
    exact Except.noConfusion h⟩

/-- C3 (amended): for every list of existing file paths at least one of
which loads with a nonzero row count, `read_multiple_csv` discards the
zero-row datasets and returns the concatenation of the remaining ones in
the order the paths were given, with the combined row index renumbered
contiguously from zero. -/
theorem read_multiple_csv_concat (fs : CsvFS) (files : List String)
    (hex : ∀ f ∈ files, (fs f).isSome)
    (hne : ∃ f ∈ files, ∃ d, fs f = some d ∧ d ≠ []) :
    readMultipleCsv fs files =
      .ok ((((files.filterMap fs).filter fun d => ¬d.isEmpty).flatten).enum) := by
  unfold readMultipleCsv
  rw [collectReads_of_exists fs files hex]
  have hmem : ∃ d ∈ (files.filterMap fs).filter fun d => ¬d.isEmpty, True := by
    rcases hne with ⟨f, hf, d, hd, hdne⟩
    refine ⟨d, List.mem_filter.mpr ⟨List.mem_filterMap.mpr ⟨f, hf, hd⟩, ?_⟩, trivial⟩
    simpa using hdne
  rcases hmem with ⟨d, hdmem, -⟩
  cases hcase : (files.filterMap fs).filter fun d => ¬d.isEmpty with
  | nil => rw [hcase] at hdmem; simp at hdmem
  | cons x xs =>
      show pdConcatIgnoreIndex ((files.filterMap fs).filter fun df => ¬df.isEmpty) =
        Except.ok ((x :: xs).flatten.enum)
      rw [show ((files.filterMap fs).filter fun df => ¬df.isEmpty) = x :: xs from hcase]
      rfl

/-- C3 (witness): reading `f1.csv` (three rows) and `f2.csv` (zero rows)
in that order yields exactly the three rows of `f1.csv` with a fresh
zero-based row index. -/
theorem read_multiple_csv_concat_witness :
    (∀ f ∈ ["f1.csv", "f2.csv"], (twoCsvFS f).isSome) ∧
    (∃ f ∈ ["f1.csv", "f2.csv"], ∃ d, twoCsvFS f = some d ∧ d ≠ []) ∧
    readMultipleCsv twoCsvFS ["f1.csv", "f2.csv"] =
      .ok [(0, ["r1"]), (1, ["r2"]), (2, ["r3"])] :=
  ⟨by decide, ⟨"f1.csv", by decide, [["r1"], ["r2"], ["r3"]], rfl, by decide⟩,
    (read_multiple_csv_concat twoCsvFS ["f1.csv", "f2.csv"] (by decide)
      ⟨"f1.csv", by decide, [["r1"], ["r2"], ["r3"]], rfl, by decide⟩).trans rfl⟩

/-- C9: if any listed path does not exist, `read_multiple_csv` fails with
`FileNotFoundError` — the failing read propagates as the failure of the
whole call, and no partial result is returned. -/
theorem read_multiple_csv_missing (fs : CsvFS) (files : List String)
    (h : ∃ f ∈ files, fs f = none) :
    readMultipleCsv fs files = .error .fileNotFoundError := by
  unfold readMultipleCsv
  rw [collectReads_missing fs files h]

/-- C9 (witness): a single missing path fails the whole call. -/
theorem read_multiple_csv_missing_witness :
    (∃ f ∈ ["missing.csv"], emptyCsvFS f = none) ∧
    readMultipleCsv emptyCsvFS ["missing.csv"] = .error .fileNotFoundError :=
  ⟨⟨"missing.csv", by decide, rfl⟩,
    read_multiple_csv_missing emptyCsvFS ["missing.csv"]
      ⟨"missing.csv", by decide, rfl⟩⟩

/-- C10: when the path list is empty, or every listed file exists but
loads as a dataset with zero rows, `read_multiple_csv` raises the
concatenation step's `ValueError` instead of returning an empty
dataset. -/
theorem read_multiple_csv_nothing_to_concat (fs : CsvFS)
    (files : List String) (h : ∀ f ∈ files, fs f = some []) :
    readMultipleCsv fs files = .error .valueError := by
  unfold readMultipleCsv
  rw [collectReads_of_exists fs files fun f hf => by simp [h f hf]]
  have hfil : ((files.filterMap fs).filter fun d => ¬d.isEmpty) = [] := by
    rw [List.filter_eq_nil_iff]
    intro d hd
    rcases List.mem_filterMap.mp hd with ⟨f, hf, hfd⟩
    rw [h f hf] at hfd
    cases hfd
    simp
  show pdConcatIgnoreIndex ((files.filterMap fs).filter fun df => ¬df.isEmpty) =
    Except.error PyErr.valueError
  rw [show ((files.filterMap fs).filter fun df => ¬df.isEmpty) = [] from hfil]
  rfl

/-- C10 (witness): the empty path list and a single zero-row file both
raise `ValueError` at the concatenation step. -/
theorem read_multiple_csv_nothing_to_concat_witness :
    (∀ f ∈ ([] : List String), emptyCsvFS f = some []) ∧
    readMultipleCsv emptyCsvFS [] = .error .valueError ∧
    (∀ f ∈ ["empty.csv"], emptyCsvFS f = some []) ∧
    readMultipleCsv emptyCsvFS ["empty.csv"] = .error .valueError :=
  ⟨by decide, read_multiple_csv_nothing_to_concat emptyCsvFS [] (by decide),
    by decide,
    read_multiple_csv_nothing_to_concat emptyCsvFS ["empty.csv"] (by decide)⟩

/-- C4 (counterexample): for a root that already ends with two slashes,
`get_full_urls` keeps both, so the produced URL is NOT the one built from
a root normalized to exactly one trailing slash. -/
theorem get_full_urls_double_slash_counterexample :
    getFullUrls "https://x.com//" ["a"] = ["https://x.com//a"] ∧
    claimJoinUrls "https://x.com//" ["a"] = ["https://x.com/a"] ∧
    getFullUrls "https://x.com//" ["a"] ≠
      claimJoinUrls "https://x.com//" ["a"] := by
  refine ⟨by decide, by decide, by decide⟩

/-- C4 (amended): `get_full_urls` normalizes the root by appending one
`'/'` only when it does not already end with `'/'` (a root already ending
in one or more slashes is kept unchanged), then returns, in the order of
the entries and keeping duplicates, the normalized root followed by each
entry stripped of leading and trailing `'/'`, silently dropping entries
that strip to the empty string; in particular
`get_full_urls("https://x.com", ["a/", "/b", "", "/"])` is
`["https://x.com/a", "https://x.com/b"]`. -/
theorem get_full_urls_spec :
    (∀ root urls, getFullUrls root urls =
      ((urls.map stripSlashes).filter fun s => s ≠ "").map
        fun s => ensureTrailingSlash root ++ s) ∧
    getFullUrls "https://x.com" ["a/", "/b", "", "/"] =
      ["https://x.com/a", "https://x.com/b"] := by
  constructor
  · intro root urls
    unfold getFullUrls
    rw [List.filter_map, List.map_map]
    rfl
  · decide

/-- C7: for every document and every non-empty query, when the query
matches nothing or its evaluation raises, `extract_urls_from_xpath`
returns the absent result `none` — not an empty set and not an error —
because `scrape_xpath` suppresses the failure and collapses the empty
match list. -/
theorem extract_urls_from_xpath_absent (response : Response)
    (xpath rootUrl : String) (hx : xpath ≠ "")
    (h : response xpath = .ok [] ∨ ∃ e, response xpath = .error e) :
    extractUrlsFromXpath response xpath rootUrl = .ok none := by
  unfold extractUrlsFromXpath scrapeXpath
  rcases h with h | ⟨e, h⟩ <;> simp [hx, h]


/-- C7 (witness): a query matching nothing and a raising evaluation both
yield the absent result. -/
theorem extract_urls_from_xpath_absent_witness :
    ("//a/@href" : String) ≠ "" ∧
    (emptyMatchResponse "//a/@href" = .ok [] ∨
      ∃ e, emptyMatchResponse "//a/@href" = .error e) ∧
    extractUrlsFromXpath emptyMatchResponse "//a/@href" "https://x.com" =
      .ok none ∧
    extractUrlsFromXpath raisingResponse "//a/@href" "https://x.com" =
      .ok none :=
  ⟨by decide, Or.inl rfl,
    extract_urls_from_xpath_absent emptyMatchResponse "//a/@href"
      "https://x.com" (by decide) (Or.inl rfl),
    extract_urls_from_xpath_absent raisingResponse "//a/@href"
      "https://x.com" (by decide) (Or.inr ⟨.otherError, rfl⟩)⟩

end PythonUtils
